import Mathlib

/-!
Verification of the tvmaze client library (`src/index.js`) against its
natural-language specification.

The library consists of a single request dispatcher (`sendRequest`) and about
twenty thin endpoint methods.  The dispatcher merges a per-call option object
over a default option object with JavaScript's `Object.assign`, builds a URL
with Node's legacy `url.format` (whose query serialization is
`querystring.stringify`), and issues one HTTP GET.

The shallow embedding below reproduces, from the source:
- the JavaScript values that flow through the query objects (`QVal`),
- Node's `querystring` percent-encoding and serialization (`qsEscape`,
  `qsStringify`),
- Node's legacy `url.format` restricted to the `pathname`/`query` fields the
  library passes (`urlFormat`),
- the option objects and the `Object.assign` shallow merge (`Options`,
  `jsAssign`),
- the dispatcher (`sendRequest`) producing the outbound request descriptor,
  and the promise chain on the transport outcome (`sendRequestResult`),
- every endpoint method of `src/index.js`.
-/

namespace Tvmaze

/-- JavaScript values that appear as endpoint-method arguments and as
query-parameter values: strings, numbers, booleans, arrays of strings,
`null` and `undefined`. -/
inductive QVal where
  | str (s : String)
  | num (n : Nat)
  | bool (b : Bool)
  | arr (elems : List String)
  | null
  | undef
deriving DecidableEq

/-- A JavaScript query object: an insertion-ordered association list of
string keys to values (JS objects iterate string keys in insertion order). -/
abbrev QueryObj := List (String × QVal)

/-- A JavaScript header object: an insertion-ordered association list of
header names to values. -/
abbrev Headers := List (String × String)

/-- JavaScript truthiness of a `QVal`: the empty string, `0`, `false`,
`null` and `undefined` are falsy; every other value (including the empty
array) is truthy. -/
def jsTruthy : QVal → Bool
  | .str s => !s.isEmpty
  | .num n => n != 0
  | .bool b => b
  | .arr _ => true
  | .null => false
  | .undef => false

/-- JavaScript string coercion of a `QVal`, as performed by a template
literal: numbers print in decimal, arrays join their elements with commas,
`null` and `undefined` print as their names. -/
def jsToString : QVal → String
  | .str s => s
  | .num n => toString n
  | .bool b => if b then "true" else "false"
  | .arr elems => String.intercalate "," elems
  | .null => "null"
  | .undef => "undefined"

/-- Node `querystring`'s `stringifyPrimitive`: strings pass through, numbers
and booleans are printed, and every other value (in particular `null` and
`undefined`) becomes the empty string.  Arrays never reach this function
because `stringify` handles them element-wise. -/
def stringifyPrimitive : QVal → String
  | .str s => s
  | .num n => toString n
  | .bool b => if b then "true" else "false"
  | _ => ""

/-- Uppercase hexadecimal digit for a value below 16. -/
def hexDigit (n : Nat) : Char :=
  if n < 10 then Char.ofNat (48 + n) else Char.ofNat (55 + n)

/-- UTF-8 encoding of a Unicode code point as a list of byte values. -/
def utf8Bytes (n : Nat) : List Nat :=
  if n < 128 then [n]
  else if n < 2048 then [192 + n / 64, 128 + n % 64]
  else if n < 65536 then [224 + n / 4096, 128 + n / 64 % 64, 128 + n % 64]
  else [240 + n / 262144, 128 + n / 4096 % 64, 128 + n / 64 % 64, 128 + n % 64]

/-- Percent-encoding of one byte: `%` followed by two uppercase hex digits. -/
def percentByte (b : Nat) : List Char :=
  ['%', hexDigit (b / 16), hexDigit (b % 16)]

/-- Characters left unescaped by Node `querystring.escape` (its `noEscape`
table): ASCII letters and digits and `! ' ( ) * - . _ ~` (code 39 is the
apostrophe).  In particular the space, `[` and `]` are escaped. -/
def noEscapeChar (c : Char) : Bool :=
  c.isAlphanum || c == '!' || c.toNat == 39 || c == '(' || c == ')' ||
    c == '*' || c == '-' || c == '.' || c == '_' || c == '~'

/-- Node `querystring.escape`: percent-encode the UTF-8 bytes of every
character outside the `noEscape` table.  The space becomes `%20` (not `+`),
`[` becomes `%5B` and `]` becomes `%5D`. -/
def qsEscape (s : String) : String :=
  String.mk (s.data.flatMap fun c =>
    if noEscapeChar c then [c] else (utf8Bytes c.toNat).flatMap percentByte)

/-- The `key=value` fragments contributed by one entry of a query object,
following Node `querystring.stringify`: an array value contributes one
`key=element` fragment per element in order (none for an empty array); any
other value contributes a single `key=stringifyPrimitive value` fragment,
so `null` and `undefined` contribute an empty-valued `key=`. -/
def pairSegments : String × QVal → List String
  | (k, QVal.arr elems) => elems.map fun e => (qsEscape k ++ "=") ++ qsEscape e
  | (k, v) => [(qsEscape k ++ "=") ++ qsEscape (stringifyPrimitive v)]

/-- Node `querystring.stringify`: the fragments of all entries, in insertion
order, joined with `&`. -/
def qsStringify (q : QueryObj) : String :=
  String.intercalate "&" (q.flatMap pairSegments)

/-- Pathname handling of Node's legacy `url.format`: `?` and `#` in the
pathname are replaced by their percent-encodings; all else passes through. -/
def formatPathname (p : String) : String :=
  String.mk (p.data.flatMap fun c =>
    if c == '?' then ['%', '3', 'F'] else if c == '#' then ['%', '2', '3'] else [c])

/-- The `query` option handed to the dispatcher.  JavaScript distinguishes an
absent `query` property, a property present with value `null` (or
`undefined`), and a query object; `url.format` emits a query string only in
the last case. -/
inductive QueryOpt where
  | absent
  | nullv
  | obj (params : QueryObj)
deriving DecidableEq

/-- Node's legacy `url.format` restricted to the fields this library passes
(`pathname` and `query`): the escaped pathname, followed by `?` and the
stringified query when the query is an object whose serialization is
non-empty. -/
def urlFormat (pathname : String) (q : QueryOpt) : String :=
  let query := match q with
    | QueryOpt.obj params => qsStringify params
    | _ => ""
  let search := if query.isEmpty then "" else "?" ++ query
  formatPathname pathname ++ search

/-- The per-call option object of `src/index.js`: recognized properties are
`https`, `header` and `query`; `none` (resp. `QueryOpt.absent`) models a
property that is not present on the object. -/
structure Options where
  https : Option Bool := none
  header : Option Headers := none
  query : QueryOpt := QueryOpt.absent
deriving DecidableEq

/-- The fixed host prefix (`src/index.js` line 10). -/
def BASE_URL : String := "api.tvmaze.com/"

/-- Modelled from the spec: the library version string is read from
`package.json`, which is not under `src/`; the spec only requires a
User-Agent of the form `<Library>/<Version>`, so a fixed placeholder value is
used.  No claim depends on the concrete value. -/
def VERSION : String := "1.0.0"

/-- The default header object of `DEFAULT_OPTIONS` (`src/index.js` lines
14-16): a single `User-Agent` entry carrying the library version. -/
def DEFAULT_HEADER : Headers :=
  [("User-Agent", "Mozilla/5.0 (Node.js) Tvmaze/" ++ VERSION)]

/-- The module-level `DEFAULT_OPTIONS` object (`src/index.js` lines 12-17):
`https: false`, the default header object, and no `query` property. -/
def DEFAULT_OPTIONS : Options :=
  { https := some false, header := some DEFAULT_HEADER, query := QueryOpt.absent }

/-- JavaScript `Object.assign` over two option objects producing a fresh
object: every property present on `o` overrides the one of `d`; properties
absent from `o` are taken from `d`.  The merge is shallow: a present
`header` or `query` property replaces the default one wholesale. -/
def jsAssign (d o : Options) : Options :=
  { https := match o.https with | some b => some b | none => d.https
  , header := match o.header with | some h => some h | none => d.header
  , query := match o.query with | QueryOpt.absent => d.query | q => q }

/-- The effective option object computed by the dispatcher
(`src/index.js` line 697): `Object.assign` of the caller's options over
`DEFAULT_OPTIONS`; an absent options argument leaves the defaults verbatim. -/
def effectiveOpts (options : Option Options) : Options :=
  jsAssign DEFAULT_OPTIONS (options.getD {})

/-- The outbound request descriptor built by the dispatcher
(`src/index.js` lines 709-713). -/
structure Request where
  method : String
  url : String
  headers : Option Headers
deriving DecidableEq

/-- The request dispatcher `sendRequest` (`src/index.js` lines 695-713) up to
the point where the request is handed to the transport: merge options,
select the scheme by the truthiness of `https`, format the URL, and attach
the effective header object. -/
def sendRequest (path : String) (options : Option Options) : Request :=
  let opts := effectiveOpts options
  let base_url := (if opts.https.getD false then "https://" else "http://") ++ BASE_URL
  let requestUrl := base_url ++ urlFormat path opts.query
  { method := "GET", url := requestUrl, headers := opts.header }

/-- An axios response: the parsed JSON body sits in the `data` property. -/
structure AxiosResponse (α : Type) where
  data : α
deriving DecidableEq

/-- The promise chain of `sendRequest` (`src/index.js` lines 716-723) over an
abstract transport: on success the parsed body `response.data` is returned
unchanged; on failure the error is rethrown unchanged. -/
def sendRequestResult {ε α : Type} (transport : Request → Except ε (AxiosResponse α))
    (path : String) (options : Option Options) : Except ε α :=
  match transport (sendRequest path options) with
  | Except.ok response => Except.ok response.data
  | Except.error e => Except.error e

/-- Endpoint method `search` (`src/index.js` lines 35-50). -/
def search (string : QVal) (options : Option Options) : Request :=
  let query := [("q", string)]
  sendRequest "search/shows" (some { options.getD {} with query := QueryOpt.obj query })

/-- Endpoint method `singleSearch` (`src/index.js` lines 69-87): the
`embed[]` entry is deleted from the query object when `embed` is falsy. -/
def singleSearch (string embed : QVal) (options : Option Options) : Request :=
  let query := [("q", string), ("embed[]", embed)]
  let query := if jsTruthy embed then query else query.filter fun p => p.fst != "embed[]"
  sendRequest "singlesearch/shows" (some { options.getD {} with query := QueryOpt.obj query })

/-- Endpoint method `searchPeople` (`src/index.js` lines 104-119). -/
def searchPeople (string : QVal) (options : Option Options) : Request :=
  let query := [("q", string)]
  sendRequest "search/people" (some { options.getD {} with query := QueryOpt.obj query })

/-- Endpoint method `lookup` (`src/index.js` lines 141-155): the external id
is placed under the query key named by `type`. -/
def lookup (type : String) (id : QVal) (options : Option Options) : Request :=
  let query := [(type, id)]
  sendRequest "lookup/shows" (some { options.getD {} with query := QueryOpt.obj query })

/-- Endpoint method `lookupThetvdb` (`src/index.js` lines 173-175). -/
def lookupThetvdb (id : QVal) (options : Option Options) : Request :=
  lookup "thetvdb" id options

/-- Endpoint method `lookupImdb` (`src/index.js` lines 193-195). -/
def lookupImdb (id : QVal) (options : Option Options) : Request :=
  lookup "imdb" id options

/-- Endpoint method `lookupTvrage` (`src/index.js` lines 213-215). -/
def lookupTvrage (id : QVal) (options : Option Options) : Request :=
  lookup "tvrage" id options

/-- Endpoint method `schedule` (`src/index.js` lines 235-251): `countrycode`
and `date` are always entries of the query object, whatever their values. -/
def schedule (countryCode date : QVal) (options : Option Options) : Request :=
  let query := [("countrycode", countryCode), ("date", date)]
  sendRequest "schedule" (some { options.getD {} with query := QueryOpt.obj query })

/-- Endpoint method `fullSchedule` (`src/index.js` lines 267-272): the
caller's options pass through unchanged. -/
def fullSchedule (options : Option Options) : Request :=
  sendRequest "schedule/full" options

/-- Endpoint method `show` (`src/index.js` lines 291-306); named `show'`
because `show` is a Lean keyword.  The query property is the embed object
when `embed` is truthy and `null` otherwise. -/
def show' (showid embed : QVal) (options : Option Options) : Request :=
  let query := [("embed[]", embed)]
  sendRequest ("shows/" ++ jsToString showid)
    (some { options.getD {} with
            query := if jsTruthy embed then QueryOpt.obj query else QueryOpt.nullv })

/-- Endpoint method `episodes` (`src/index.js` lines 324-339). -/
def episodes (showid specials : QVal) (options : Option Options) : Request :=
  let query := [("specials", QVal.num 1)]
  sendRequest ("shows/" ++ jsToString showid ++ "/episodes")
    (some { options.getD {} with
            query := if jsTruthy specials then QueryOpt.obj query else QueryOpt.nullv })

/-- Endpoint method `episode` (`src/index.js` lines 358-374). -/
def episode (showid season episode : QVal) (options : Option Options) : Request :=
  let query := [("season", season), ("number", episode)]
  sendRequest ("shows/" ++ jsToString showid ++ "/episodebynumber")
    (some { options.getD {} with query := QueryOpt.obj query })

/-- Endpoint method `episodesByDate` (`src/index.js` lines 393-408). -/
def episodesByDate (showid date : QVal) (options : Option Options) : Request :=
  let query := [("date", date)]
  sendRequest ("shows/" ++ jsToString showid ++ "/episodesbydate")
    (some { options.getD {} with query := QueryOpt.obj query })

/-- Endpoint method `seasons` (`src/index.js` lines 425-430). -/
def seasons (showid : QVal) (options : Option Options) : Request :=
  sendRequest ("shows/" ++ jsToString showid ++ "/seasons") options

/-- Endpoint method `seasonEpisodes` (`src/index.js` lines 447-452). -/
def seasonEpisodes (seasonid : QVal) (options : Option Options) : Request :=
  sendRequest ("seasons/" ++ jsToString seasonid ++ "/episodes") options

/-- Endpoint method `cast` (`src/index.js` lines 470-475). -/
def cast (showid : QVal) (options : Option Options) : Request :=
  sendRequest ("shows/" ++ jsToString showid ++ "/cast") options

/-- Endpoint method `crew` (`src/index.js` lines 492-497). -/
def crew (showid : QVal) (options : Option Options) : Request :=
  sendRequest ("shows/" ++ jsToString showid ++ "/crew") options

/-- Endpoint method `aliases` (`src/index.js` lines 514-519). -/
def aliases (showid : QVal) (options : Option Options) : Request :=
  sendRequest ("shows/" ++ jsToString showid ++ "/akas") options

/-- Endpoint method `showsIndex` (`src/index.js` lines 536-551): the query
property is the page object when `page` is truthy and `null` otherwise. -/
def showsIndex (page : QVal) (options : Option Options) : Request :=
  let query := [("page", page)]
  sendRequest "shows"
    (some { options.getD {} with
            query := if jsTruthy page then QueryOpt.obj query else QueryOpt.nullv })

/-- Endpoint method `showUpdates` (`src/index.js` lines 567-572). -/
def showUpdates (options : Option Options) : Request :=
  sendRequest "updates/shows" options

/-- Endpoint method `person` (`src/index.js` lines 591-606). -/
def person (personid embed : QVal) (options : Option Options) : Request :=
  let query := [("embed[]", embed)]
  sendRequest ("people/" ++ jsToString personid)
    (some { options.getD {} with
            query := if jsTruthy embed then QueryOpt.obj query else QueryOpt.nullv })

/-- Endpoint method `personCastCredits` (`src/index.js` lines 625-640). -/
def personCastCredits (personid embed : QVal) (options : Option Options) : Request :=
  let query := [("embed[]", embed)]
  sendRequest ("people/" ++ jsToString personid ++ "/castcredits")
    (some { options.getD {} with
            query := if jsTruthy embed then QueryOpt.obj query else QueryOpt.nullv })

/-- Endpoint method `personCrewCredits` (`src/index.js` lines 659-674). -/
def personCrewCredits (personid embed : QVal) (options : Option Options) : Request :=
  let query := [("embed[]", embed)]
  sendRequest ("people/" ++ jsToString personid ++ "/crewcredits")
    (some { options.getD {} with
            query := if jsTruthy embed then QueryOpt.obj query else QueryOpt.nullv })

/-! Helper lemmas about `String.append`, which is concatenation of the
underlying character lists. -/

/-- String concatenation is associative. -/
theorem string_append_assoc (a b c : String) : (a ++ b) ++ c = a ++ (b ++ c) :=
  congrArg String.mk (List.append_assoc a.data b.data c.data)

/-- The empty string is a right identity for concatenation. -/
theorem string_append_empty (s : String) : s ++ "" = s :=
  congrArg String.mk (List.append_nil s.data)

/-- Claim C1, counterexample: a `schedule` call with `countryCode` and `date`
left unsupplied does not omit the two keys; its query string is
`countrycode=&date=`, two empty-valued keys, because
`querystring.stringify` serializes an `undefined` value as an empty
string rather than dropping the key. -/
theorem schedule_unsupplied_emits_empty_keys_cex :
    (schedule QVal.undef QVal.undef Option.none).url
      = "http://api.tvmaze.com/schedule?countrycode=&date=" ∧
    (schedule QVal.undef QVal.undef Option.none).url
      ≠ "http://api.tvmaze.com/schedule" :=
  ⟨rfl, by decide⟩

/-- Claim C1, amended: the optional parameters `embed`, `page` and `specials`
left unsupplied produce no corresponding key, because the endpoint method
deletes the key (`singleSearch`) or replaces the whole query object with
`null` (`show`, `episodes`, `showsIndex`, `person`, `personCastCredits`,
`personCrewCredits`); but a key whose value is `null` or `undefined` is
serialized as an empty-valued `key=` entry, so a `schedule` call with
`countryCode` or `date` unsupplied yields `countrycode=&date=`. -/
theorem optional_params_omitted_amended :
    (∀ s : String, (singleSearch (QVal.str s) QVal.undef Option.none).url
        = "http://api.tvmaze.com/singlesearch/shows?q=" ++ qsEscape s) ∧
    (show' (QVal.num 396) QVal.undef Option.none).url
      = "http://api.tvmaze.com/shows/396" ∧
    (episodes (QVal.num 396) QVal.undef Option.none).url
      = "http://api.tvmaze.com/shows/396/episodes" ∧
    (showsIndex QVal.undef Option.none).url = "http://api.tvmaze.com/shows" ∧
    (person (QVal.num 37135) QVal.undef Option.none).url
      = "http://api.tvmaze.com/people/37135" ∧
    (personCastCredits (QVal.num 37135) QVal.undef Option.none).url
      = "http://api.tvmaze.com/people/37135/castcredits" ∧
    (personCrewCredits (QVal.num 100) QVal.undef Option.none).url
      = "http://api.tvmaze.com/people/100/crewcredits" ∧
    (∀ k : String, qsStringify [(k, QVal.null)] = qsEscape k ++ "=" ∧
        qsStringify [(k, QVal.undef)] = qsEscape k ++ "=") ∧
    (schedule QVal.undef QVal.undef Option.none).url
      = "http://api.tvmaze.com/schedule?countrycode=&date=" := by
  refine ⟨fun s => rfl, rfl, rfl, rfl, rfl, rfl, rfl, fun k => ⟨?_, ?_⟩, rfl⟩ <;>
  · show (qsEscape k ++ "=") ++ qsEscape "" = qsEscape k ++ "="
    exact string_append_empty (qsEscape k ++ "=")

/-- Claim C2, counterexample: supplying a header object that does not contain
`User-Agent` drops the default `User-Agent` header entirely, because
`Object.assign` replaces the whole `header` property rather than merging
header-by-header. -/
theorem header_replace_drops_default_cex :
    (sendRequest "schedule/full"
        (some { header := some [("Accept", "application/json")] })).headers
      = some [("Accept", "application/json")] ∧
    (((sendRequest "schedule/full"
        (some { header := some [("Accept", "application/json")] })).headers.getD
          []).lookup "User-Agent") = Option.none :=
  ⟨rfl, rfl⟩

/-- Claim C2, amended: a supplied header object replaces the default header
object wholesale (the merge is shallow), so the default `User-Agent` survives
only if the caller re-supplies it; when no header object is supplied the
default `User-Agent` header object is used. -/
theorem header_option_replaces_default :
    (∀ (path : String) (o : Options),
        (sendRequest path (some o)).headers = some (o.header.getD DEFAULT_HEADER)) ∧
    (∀ path : String, (sendRequest path Option.none).headers = some DEFAULT_HEADER) := by
  constructor
  · intro path o
    rcases o with ⟨hs, hd, q⟩
    cases hd <;> rfl
  · intro path
    rfl

/-- Claim C5: the effective configuration equals the defaults with every
option property present on the caller's object overriding the corresponding
default property; absent properties keep the default; an absent options
argument uses the defaults verbatim. -/
theorem options_merge_policy :
    (∀ o : Options,
        (effectiveOpts (some o)).https = some (o.https.getD false) ∧
        (effectiveOpts (some o)).header = some (o.header.getD DEFAULT_HEADER) ∧
        (effectiveOpts (some o)).query = o.query) ∧
    effectiveOpts Option.none = DEFAULT_OPTIONS := by
  constructor
  · intro o
    rcases o with ⟨hs, hd, q⟩
    refine ⟨?_, ?_, ?_⟩
    · cases hs <;> rfl
    · cases hd <;> rfl
    · cases q <;> rfl
  · rfl

/-- Claim C9: the three convenience wrappers are definitionally `lookup` at
the corresponding fixed type; `lookup` places the external id under the
query key named by the type, on path `lookup/shows`; and the documented
example URL for `lookupImdb` is reproduced. -/
theorem lookup_wrappers_equiv :
    (∀ (id : QVal) (o : Option Options), lookupThetvdb id o = lookup "thetvdb" id o) ∧
    (∀ (id : QVal) (o : Option Options), lookupImdb id o = lookup "imdb" id o) ∧
    (∀ (id : QVal) (o : Option Options), lookupTvrage id o = lookup "tvrage" id o) ∧
    (∀ id : String, (lookupThetvdb (QVal.str id) Option.none).url
        = "http://api.tvmaze.com/lookup/shows?thetvdb=" ++ qsEscape id) ∧
    (∀ id : String, (lookupImdb (QVal.str id) Option.none).url
        = "http://api.tvmaze.com/lookup/shows?imdb=" ++ qsEscape id) ∧
    (∀ id : String, (lookupTvrage (QVal.str id) Option.none).url
        = "http://api.tvmaze.com/lookup/shows?tvrage=" ++ qsEscape id) ∧
    (lookupImdb (QVal.str "tt3530232") Option.none).url
      = "http://api.tvmaze.com/lookup/shows?imdb=tt3530232" :=
  ⟨fun _ _ => rfl, fun _ _ => rfl, fun _ _ => rfl,
   fun _ => rfl, fun _ => rfl, fun _ => rfl, rfl⟩

/-- Claim C10: in every endpoint method that constructs its own query, the
`query` property of the caller's options has no effect: the method's
`Object.assign` places its own `query` property (or the explicit `null`)
after the caller's options, so the computed request is the same whatever
`query` the caller supplied. -/
theorem method_query_overrides_options :
    (∀ (v : QVal) (o : Options) (q : QueryOpt),
        search v (some { o with query := q }) = search v (some o)) ∧
    (∀ (v e : QVal) (o : Options) (q : QueryOpt),
        singleSearch v e (some { o with query := q }) = singleSearch v e (some o)) ∧
    (∀ (v : QVal) (o : Options) (q : QueryOpt),
        searchPeople v (some { o with query := q }) = searchPeople v (some o)) ∧
    (∀ (t : String) (v : QVal) (o : Options) (q : QueryOpt),
        lookup t v (some { o with query := q }) = lookup t v (some o)) ∧
    (∀ (c d : QVal) (o : Options) (q : QueryOpt),
        schedule c d (some { o with query := q }) = schedule c d (some o)) ∧
    (∀ (i s n : QVal) (o : Options) (q : QueryOpt),
        episode i s n (some { o with query := q }) = episode i s n (some o)) ∧
    (∀ (i d : QVal) (o : Options) (q : QueryOpt),
        episodesByDate i d (some { o with query := q }) = episodesByDate i d (some o)) ∧
    (∀ (i e : QVal) (o : Options) (q : QueryOpt),
        show' i e (some { o with query := q }) = show' i e (some o)) ∧
    (∀ (i s : QVal) (o : Options) (q : QueryOpt),
        episodes i s (some { o with query := q }) = episodes i s (some o)) ∧
    (∀ (p : QVal) (o : Options) (q : QueryOpt),
        showsIndex p (some { o with query := q }) = showsIndex p (some o)) ∧
    (∀ (i e : QVal) (o : Options) (q : QueryOpt),
        person i e (some { o with query := q }) = person i e (some o)) ∧
    (∀ (i e : QVal) (o : Options) (q : QueryOpt),
        personCastCredits i e (some { o with query := q }) = personCastCredits i e (some o)) ∧
    (∀ (i e : QVal) (o : Options) (q : QueryOpt),
        personCrewCredits i e (some { o with query := q }) = personCrewCredits i e (some o)) :=
  ⟨fun _ _ _ => rfl, fun _ _ _ _ => rfl, fun _ _ _ => rfl, fun _ _ _ _ => rfl,
   fun _ _ _ _ => rfl, fun _ _ _ _ _ => rfl, fun _ _ _ _ => rfl, fun _ _ _ _ => rfl,
   fun _ _ _ _ => rfl, fun _ _ _ => rfl, fun _ _ _ _ => rfl, fun _ _ _ _ => rfl,
   fun _ _ _ _ => rfl⟩

/-- Claim C3, counterexample: the documented example
`singleSearch("star vs the forces of evil", ["episodes"])` does not yield
the query string `q=star+vs+the+forces+of+evil&embed%5B%5D=episodes`:
Node's `querystring.escape` percent-encodes the space as `%20`, not `+`. -/
theorem singleSearch_example_encoding_cex :
    (singleSearch (QVal.str "star vs the forces of evil") (QVal.arr ["episodes"])
        Option.none).url
      = "http://api.tvmaze.com/singlesearch/shows?q=star%20vs%20the%20forces%20of%20evil&embed%5B%5D=episodes" ∧
    (singleSearch (QVal.str "star vs the forces of evil") (QVal.arr ["episodes"])
        Option.none).url
      ≠ "http://api.tvmaze.com/singlesearch/shows?q=star+vs+the+forces+of+evil&embed%5B%5D=episodes" :=
  ⟨rfl, by decide⟩

/-- Claim C3, amended: for every Endpoint Method the constructed URL matches
the documented path/query template, with special characters in search
strings percent-encoded; spaces are encoded `%20` (not `+`), so the
documented example yields
`q=star%20vs%20the%20forces%20of%20evil&embed%5B%5D=episodes`. -/
theorem endpoint_url_templates :
    (∀ s : String, (search (QVal.str s) Option.none).url
        = "http://api.tvmaze.com/search/shows?q=" ++ qsEscape s) ∧
    (∀ s : String, (singleSearch (QVal.str s) QVal.undef Option.none).url
        = "http://api.tvmaze.com/singlesearch/shows?q=" ++ qsEscape s) ∧
    (singleSearch (QVal.str "star vs the forces of evil") (QVal.arr ["episodes"])
        Option.none).url
      = "http://api.tvmaze.com/singlesearch/shows?q=star%20vs%20the%20forces%20of%20evil&embed%5B%5D=episodes" ∧
    (∀ s : String, (searchPeople (QVal.str s) Option.none).url
        = "http://api.tvmaze.com/search/people?q=" ++ qsEscape s) ∧
    (∀ cc d : String, (schedule (QVal.str cc) (QVal.str d) Option.none).url
        = "http://api.tvmaze.com/schedule?countrycode=" ++ qsEscape cc
            ++ "&date=" ++ qsEscape d) ∧
    (fullSchedule Option.none).url = "http://api.tvmaze.com/schedule/full" ∧
    (show' (QVal.num 396) (QVal.arr ["episodes"]) Option.none).url
      = "http://api.tvmaze.com/shows/396?embed%5B%5D=episodes" ∧
    (episodes (QVal.num 396) (QVal.bool true) Option.none).url
      = "http://api.tvmaze.com/shows/396/episodes?specials=1" ∧
    (episode (QVal.num 396) (QVal.num 1) (QVal.num 1) Option.none).url
      = "http://api.tvmaze.com/shows/396/episodebynumber?season=1&number=1" ∧
    (∀ d : String, (episodesByDate (QVal.num 321) (QVal.str d) Option.none).url
        = "http://api.tvmaze.com/shows/321/episodesbydate?date=" ++ qsEscape d) ∧
    (seasons (QVal.num 321) Option.none).url
      = "http://api.tvmaze.com/shows/321/seasons" ∧
    (seasonEpisodes (QVal.num 1) Option.none).url
      = "http://api.tvmaze.com/seasons/1/episodes" ∧
    (cast (QVal.num 174) Option.none).url = "http://api.tvmaze.com/shows/174/cast" ∧
    (crew (QVal.num 174) Option.none).url = "http://api.tvmaze.com/shows/174/crew" ∧
    (aliases (QVal.num 49) Option.none).url = "http://api.tvmaze.com/shows/49/akas" ∧
    (showsIndex (QVal.num 1) Option.none).url = "http://api.tvmaze.com/shows?page=1" ∧
    (showUpdates Option.none).url = "http://api.tvmaze.com/updates/shows" ∧
    (person (QVal.num 37135) (QVal.arr ["castcredits"]) Option.none).url
      = "http://api.tvmaze.com/people/37135?embed%5B%5D=castcredits" ∧
    (personCastCredits (QVal.num 37135) (QVal.arr ["show"]) Option.none).url
      = "http://api.tvmaze.com/people/37135/castcredits?embed%5B%5D=show" ∧
    (personCrewCredits (QVal.num 100) (QVal.arr ["show"]) Option.none).url
      = "http://api.tvmaze.com/people/100/crewcredits?embed%5B%5D=show" ∧
    (∀ id : String, (lookup "imdb" (QVal.str id) Option.none).url
        = "http://api.tvmaze.com/lookup/shows?imdb=" ++ qsEscape id) := by
  refine ⟨fun s => rfl, fun s => rfl, rfl, fun s => rfl, ?_, rfl, rfl, rfl, rfl,
    fun d => rfl, rfl, rfl, rfl, rfl, rfl, rfl, rfl, rfl, rfl, rfl, fun id => rfl⟩
  intro cc d
  have h : (schedule (QVal.str cc) (QVal.str d) Option.none).url
      = "http://api.tvmaze.com/schedule?countrycode="
          ++ ((qsEscape cc ++ "&") ++ ("date=" ++ qsEscape d)) := rfl
  rw [h]
  simp only [string_append_assoc]
  rfl

/-- Claim C4: a non-empty embed list is serialized as repeated
`embed%5B%5D=value` entries in list order (the bracket characters of the key
are percent-encoded), never as a single combined value: the query fragments
are one per element joined by `&`, and for a two-element list the full URL
carries the two entries in the input order. -/
theorem embed_array_encoding :
    (∀ elems : List String,
        qsStringify [("embed[]", QVal.arr elems)]
          = String.intercalate "&" (elems.map fun e => "embed%5B%5D=" ++ qsEscape e)) ∧
    (∀ s a b : String,
        (singleSearch (QVal.str s) (QVal.arr [a, b]) Option.none).url
          = "http://api.tvmaze.com/singlesearch/shows?q=" ++ qsEscape s
              ++ "&embed%5B%5D=" ++ qsEscape a ++ "&embed%5B%5D=" ++ qsEscape b) ∧
    (∀ a b : String,
        (show' (QVal.num 396) (QVal.arr [a, b]) Option.none).url
          = "http://api.tvmaze.com/shows/396?embed%5B%5D=" ++ qsEscape a
              ++ "&embed%5B%5D=" ++ qsEscape b) := by
  refine ⟨?_, ?_, ?_⟩
  · intro elems
    have h : qsStringify [("embed[]", QVal.arr elems)]
        = String.intercalate "&"
            ((elems.map fun e => "embed%5B%5D=" ++ qsEscape e) ++ []) := rfl
    rw [h, List.append_nil]
  · intro s a b
    have h : (singleSearch (QVal.str s) (QVal.arr [a, b]) Option.none).url
        = "http://api.tvmaze.com/singlesearch/shows?q="
            ++ ((((qsEscape s ++ "&") ++ ("embed%5B%5D=" ++ qsEscape a)) ++ "&")
                  ++ ("embed%5B%5D=" ++ qsEscape b)) := rfl
    rw [h]
    simp only [string_append_assoc]
    rfl
  · intro a b
    have h : (show' (QVal.num 396) (QVal.arr [a, b]) Option.none).url
        = "http://api.tvmaze.com/shows/396?embed%5B%5D="
            ++ ((qsEscape a ++ "&") ++ ("embed%5B%5D=" ++ qsEscape b)) := rfl
    rw [h]
    simp only [string_append_assoc]
    rfl

/-- Claim C6, counterexample: `search` called with an `undefined` search
string, and `lookup` with an `undefined` id, raise no local invalid-argument
error: a full GET request to the remote service is still constructed, with
the malformed argument serialized as an empty query value. -/
theorem search_no_validation_cex :
    search QVal.undef Option.none
      = { method := "GET", url := "http://api.tvmaze.com/search/shows?q=",
          headers := some DEFAULT_HEADER } ∧
    lookup "imdb" QVal.undef Option.none
      = { method := "GET", url := "http://api.tvmaze.com/lookup/shows?imdb=",
          headers := some DEFAULT_HEADER } :=
  ⟨rfl, rfl⟩

/-- Claim C6, amended: no endpoint method validates its arguments: every
call, malformed input included, is a total function into an outbound GET
request handed to the transport; `search` and `lookup` always dispatch their
constructed query, whatever the argument value. -/
theorem no_local_validation_amended :
    (∀ (v : QVal) (o : Option Options),
        search v o = sendRequest "search/shows"
          (some { o.getD {} with query := QueryOpt.obj [("q", v)] })) ∧
    (∀ (t : String) (v : QVal) (o : Option Options),
        lookup t v o = sendRequest "lookup/shows"
          (some { o.getD {} with query := QueryOpt.obj [(t, v)] })) ∧
    (∀ (v : QVal) (o : Option Options), (search v o).method = "GET") ∧
    (∀ (t : String) (v : QVal) (o : Option Options), (lookup t v o).method = "GET") :=
  ⟨fun _ _ => rfl, fun _ _ _ => rfl, fun _ _ => rfl, fun _ _ _ => rfl⟩

/-- Claim C7: the dispatcher is a pure passthrough of the transport outcome:
on success it resolves with the parsed body (`response.data`) exactly as the
transport returned it, and on failure it rethrows the underlying error
unchanged, with no retry or translation. -/
theorem dispatch_passthrough {ε α : Type}
    (transport : Request → Except ε (AxiosResponse α))
    (path : String) (options : Option Options) :
    (∀ r : AxiosResponse α, transport (sendRequest path options) = Except.ok r →
        sendRequestResult transport path options = Except.ok r.data) ∧
    (∀ e : ε, transport (sendRequest path options) = Except.error e →
        sendRequestResult transport path options = Except.error e) := by
  constructor
  · intro r h
    unfold sendRequestResult
    rw [h]
  · intro e h
    unfold sendRequestResult
    rw [h]

/-- Claim C7, witness: the passthrough law evaluated on a constant-success
transport and on a constant-failure transport. -/
theorem dispatch_passthrough_witness :
    sendRequestResult (fun _ => Except.ok ⟨42⟩ :
        Request → Except String (AxiosResponse Nat)) "shows/1" Option.none
      = Except.ok 42 ∧
    sendRequestResult (fun _ => Except.error "boom" :
        Request → Except String (AxiosResponse Nat)) "shows/1" Option.none
      = Except.error "boom" :=
  ⟨(dispatch_passthrough _ "shows/1" Option.none).1 ⟨42⟩ rfl,
   (dispatch_passthrough _ "shows/1" Option.none).2 "boom" rfl⟩

/-- Claim C8: when the effective options carry `https = true` the
constructed URL begins with `https://`; in every other case (`https` false
or absent, or no options at all, the default being `false`) it begins with
`http://`. -/
theorem scheme_selection :
    (∀ (path : String) (o : Options), o.https = some true →
        ∃ rest, (sendRequest path (some o)).url = "https://" ++ rest) ∧
    (∀ (path : String) (o : Options), o.https ≠ some true →
        ∃ rest, (sendRequest path (some o)).url = "http://" ++ rest) ∧
    (∀ path : String, ∃ rest, (sendRequest path Option.none).url = "http://" ++ rest) := by
  refine ⟨?_, ?_, ?_⟩
  · intro path o h
    rcases o with ⟨hs, hd, q⟩
    cases hs with
    | none => simp at h
    | some b =>
      cases b with
      | false => simp at h
      | true =>
        exact ⟨BASE_URL ++ urlFormat path (effectiveOpts (some ⟨some true, hd, q⟩)).query, rfl⟩
  · intro path o h
    rcases o with ⟨hs, hd, q⟩
    cases hs with
    | none =>
      exact ⟨BASE_URL ++ urlFormat path (effectiveOpts (some ⟨none, hd, q⟩)).query, rfl⟩
    | some b =>
      cases b with
      | true => exact absurd rfl h
      | false =>
        exact ⟨BASE_URL ++ urlFormat path (effectiveOpts (some ⟨some false, hd, q⟩)).query, rfl⟩
  · intro path
    exact ⟨BASE_URL ++ urlFormat path (effectiveOpts Option.none).query, rfl⟩

/-- Claim C8, witness: the scheme law evaluated at `https = some true`, at
`https = some false`, and with no options at all. -/
theorem scheme_selection_witness :
    (∃ rest, (sendRequest "shows" (some { https := some true })).url = "https://" ++ rest) ∧
    (∃ rest, (sendRequest "shows" (some { https := some false })).url = "http://" ++ rest) ∧
    (∃ rest, (sendRequest "shows" Option.none).url = "http://" ++ rest) :=
  ⟨scheme_selection.1 "shows" { https := some true } rfl,
   scheme_selection.2.1 "shows" { https := some false } (by decide),
   scheme_selection.2.2 "shows"⟩

end Tvmaze
